import Mathlib

/-!
Verification of the Heartflow proactive-reply decision plugin (`main.py`).

The Python source is shallowly embedded below.  Conventions:

* Python `float` values are modelled as exact rationals (`ℚ`); all the
  numeric code under scrutiny is affine arithmetic with `min`/`max`
  clamping, whose claimed properties are algebraic.
* Python `str.strip()` is modelled by `pyStrip` (drop leading/trailing
  whitespace characters); `str.replace` is `String.replace` (both replace
  every occurrence).
* `json.loads` is Python standard library, not repository code, so it is
  abstracted as a parameter `loads : String → Option Json`, `none`
  standing for `json.JSONDecodeError`.
* Calls to the judge LLM provider (`provider.text_chat`) are abstracted
  as oracles `String → String` from prompt to completion text, and the
  embeddings count how many such calls are made.
* Exceptions are modelled by `Option`/`Except` or by the concrete
  fallback value the enclosing Python `except` handler produces.
-/

namespace Heartflow

/-! ### Models of Python string primitives -/

/-- Model of Python `str.strip()`: remove leading and trailing whitespace
characters from the code-point sequence. -/
def pyStrip (s : String) : String :=
  ⟨((s.data.dropWhile Char.isWhitespace).reverse.dropWhile Char.isWhitespace).reverse⟩

theorem pyStrip_length_le (s : String) : (pyStrip s).length ≤ s.length := by
  have h1 := List.Sublist.length_le
    (List.dropWhile_sublist (l := (s.data.dropWhile Char.isWhitespace).reverse)
      (p := Char.isWhitespace))
  have h2 := List.Sublist.length_le
    (List.dropWhile_sublist (l := s.data) (p := Char.isWhitespace))
  simp only [pyStrip, String.length, List.length_reverse] at *
  omega

/-- Model of Python `int()` applied to a real value: truncation toward
zero. -/
def pyint (q : ℚ) : ℤ :=
  if 0 ≤ q then ⌊q⌋ else ⌈q⌉

/-! ### JSON values (the shape `json.loads` can return) -/

/-- A parsed JSON value, as produced by `json.loads`. -/
inductive Json where
  | null
  | bool (b : Bool)
  | num (q : ℚ)
  | str (s : String)
  | arr (elems : List Json)
  | obj (fields : List (String × Json))

/-- Python truthiness of a JSON-decoded value (`None`, `False`, `0`, `""`,
`[]`, `{}` are falsy). -/
def pyTruthy : Json → Bool
  | Json.null => false
  | Json.bool b => b
  | Json.num q => decide (q ≠ 0)
  | Json.str s => decide (s ≠ "")
  | Json.arr elems => !elems.isEmpty
  | Json.obj fields => !fields.isEmpty

/-- Numeric interpretation usable in Python arithmetic (`x * 0.25`):
numbers are themselves, booleans coerce to 0/1, every other type raises
`TypeError` (modelled as `none`). -/
def pyNumVal : Json → Option ℚ
  | Json.num q => some q
  | Json.bool b => some (if b then 1 else 0)
  | _ => none

/-- Model of `dict.get(key)` on a decoded JSON object (absent key gives
`none`; the caller supplies a default with `Option.getD`). -/
def dictGet (fields : List (String × Json)) (key : String) : Option Json :=
  (fields.find? (fun p => p.1 == key)).map (fun p => p.2)

/-! ### Data model (`main.py` lines 12-39) -/

/-- `JudgeResult` dataclass (lines 12-28).  The `should_reply` field is
recorded as the Python truthiness of the stored value: Python's
`x and y` returns `x` when `x` is falsy, and every downstream use of the
field (`if judge_result.should_reply:`) only tests truthiness.
`reasoning`, `confidence` and `related_messages` can receive values of
any JSON type, so they are kept as `Json`.  The `related_messages`
default reflects `__post_init__` turning `None` into `[]`. -/
structure JudgeResult where
  relevance : ℚ := 0
  willingness : ℚ := 0
  social : ℚ := 0
  timing : ℚ := 0
  continuity : ℚ := 0
  reasoning : Json := Json.str ""
  should_reply : Bool := false
  confidence : Json := Json.num 0
  overall_score : ℚ := 0
  related_messages : Json := Json.arr []

/-- `ChatState` dataclass (lines 31-38). -/
structure ChatState where
  energy : ℚ := 1
  last_reply_time : ℚ := 0
  last_reset_date : String := ""
  total_messages : ℕ := 0
  total_replies : ℕ := 0
deriving DecidableEq

/-! ### Chat-state operations (`_get_chat_state`, `_update_active_state`,
`_update_passive_state`; lines 393-401, 435-449, 575-587) -/

/-- Daily-reset portion of `_get_chat_state` (lines 441-447): on a date
change, bump energy by 0.2 (clamped to 1.0) and record the date. -/
def get_or_create_reset (today : String) (st : ChatState) : ChatState :=
  if st.last_reset_date ≠ today then
    { st with last_reset_date := today, energy := min 1 (st.energy + 0.2) }
  else st

/-- `_update_active_state` (lines 575-587): the handler first fetches the
state through `_get_chat_state` (daily reset), then records the reply and
decays energy, clamped below at 0.1. -/
def update_active (energy_decay_rate : ℚ) (now : ℚ) (today : String) (st : ChatState) :
    ChatState :=
  let s := get_or_create_reset today st
  { s with
    last_reply_time := now
    total_replies := s.total_replies + 1
    total_messages := s.total_messages + 1
    energy := max 0.1 (s.energy - energy_decay_rate) }

/-- `_update_passive_state` (lines 393-401): fetch state (daily reset),
count the message, recover energy clamped above at 1.0. -/
def update_passive (energy_recovery_rate : ℚ) (today : String) (st : ChatState) :
    ChatState :=
  let s := get_or_create_reset today st
  { s with
    total_messages := s.total_messages + 1
    energy := min 1 (s.energy + energy_recovery_rate) }

/-- One step of the chat-state machine: an active update, a passive
update, or a bare `_get_chat_state` daily reset. -/
inductive HeartOp where
  | active (now : ℚ) (today : String)
  | passive (today : String)
  | getOrCreate (today : String)

/-- Apply a single state-machine step. -/
def applyHeartOp (decay recovery : ℚ) (st : ChatState) : HeartOp → ChatState
  | HeartOp.active now today => update_active decay now today st
  | HeartOp.passive today => update_passive recovery today st
  | HeartOp.getOrCreate today => get_or_create_reset today st

/-- Run a finite interleaving of state-machine steps. -/
def runHeartOps (decay recovery : ℚ) (ops : List HeartOp) (st : ChatState) : ChatState :=
  ops.foldl (applyHeartOp decay recovery) st

/-- `_get_minutes_since_last_reply` (lines 451-458): fetches the state
(applying the daily reset), returns the 999 sentinel when there was never
a proactive reply, else `int((now - last_reply_time)/60)`. -/
def get_minutes_since_last_reply (today : String) (now : ℚ) (st : ChatState) : ℤ :=
  let s := get_or_create_reset today st
  if s.last_reply_time = 0 then 999
  else pyint ((now - s.last_reply_time) / 60)

/-! ### Chat context (`_build_chat_context`, lines 501-514) -/

/-- The activity-bucket conditional expression of line 511. -/
def activity_bucket (total_messages : ℕ) : String :=
  if total_messages > 100 then "高" else if total_messages > 20 then "中" else "低"

/-- The guarded reply-rate computation of lines 505-509. -/
def reply_rate (total_messages total_replies : ℕ) : ℚ :=
  if total_messages = 0 then 0
  else (total_replies : ℚ) / (total_messages : ℚ) * 100

/-- Model of the Python f-string format `\x7breply_rate:.1f\x7d` for the
nonnegative values arising here: round to one decimal place and render
(ties round up rather than banker's rounding; the callers' values in the
claims are exact tenths, where the two agree). -/
def fmt1f (q : ℚ) : String :=
  let n : ℤ := ⌊q * 10 + 1 / 2⌋
  toString (n / 10) ++ "." ++ toString (n % 10)

/-- `_build_chat_context` (lines 501-514), with the wall-clock time
rendering abstracted as the `timeStr` argument. -/
def build_chat_context (timeStr : String) (st : ChatState) : String :=
  "最近活跃度: " ++ activity_bucket st.total_messages ++
  "\n历史回复率: " ++ fmt1f (reply_rate st.total_messages st.total_replies) ++
  "%\n当前时间: " ++ timeStr

/-! ### Scoring (`__init__` weights, lines 66-72; overall score,
lines 331-337) -/

/-- The `self.weights` dictionary (lines 66-72). -/
def weights : String → ℚ
  | "relevance" => 0.25
  | "willingness" => 0.2
  | "social" => 0.2
  | "timing" => 0.15
  | "continuity" => 0.2
  | _ => 0

/-- The `overall_score` expression of lines 331-337. -/
def compute_overall_score (relevance willingness social timing continuity : ℚ) : ℚ :=
  (relevance * weights "relevance" +
   willingness * weights "willingness" +
   social * weights "social" +
   timing * weights "timing" +
   continuity * weights "continuity") / 10

/-! ### Judge-response parsing (`judge_with_tiny_model`, lines 319-357) -/

/-- The code-fence stripping of lines 323-326 (and 175-178): `replace`
removes every occurrence, then the result is stripped. -/
def stripCodeFences (content : String) : String :=
  if content.startsWith "```json" then
    pyStrip ((content.replace "```json" "").replace "```" "")
  else if content.startsWith "```" then
    pyStrip (content.replace "```" "")
  else content

/-- One dimension read `judge_data.get(name, 0)` as later consumed by the
arithmetic of lines 331-337: an absent key defaults to `0`; a present
non-numeric value raises `TypeError` in the multiplication (`none`). -/
def getDimension (fields : List (String × Json)) (name : String) : Option ℚ :=
  match dictGet fields name with
  | none => some 0
  | some v => pyNumVal v

/-- The `__post_init__` treatment of `related_messages` (lines 26-28):
a `None` value (JSON `null`) becomes the empty list; anything else is
kept as stored. -/
def postInitRelated : Json → Json
  | Json.null => Json.arr []
  | v => v

/-- Lines 328-350 applied to a successfully decoded JSON **object**:
compute the overall score and build the `JudgeResult`.  `none` models a
`TypeError` raised by a non-numeric dimension value inside the
arithmetic of lines 331-337, which escapes the inner `try` (it only
catches `json.JSONDecodeError`) and is handled by the outer handler of
lines 355-357. -/
def judge_from_data (reply_threshold : ℚ) (fields : List (String × Json)) :
    Option JudgeResult :=
  match getDimension fields "relevance", getDimension fields "willingness",
        getDimension fields "social", getDimension fields "timing",
        getDimension fields "continuity" with
  | some r, some w, some so, some t, some c =>
    let overall_score := compute_overall_score r w so t c
    some {
      relevance := r
      willingness := w
      social := so
      timing := t
      continuity := c
      reasoning := (dictGet fields "reasoning").getD (Json.str "")
      should_reply :=
        pyTruthy ((dictGet fields "should_reply").getD (Json.bool false)) &&
        decide (reply_threshold ≤ overall_score)
      confidence := (dictGet fields "confidence").getD (Json.num 0)
      overall_score := overall_score
      related_messages :=
        postInitRelated ((dictGet fields "related_messages").getD (Json.arr [])) }
  | _, _, _, _, _ => none

/-- The `JudgeResult(should_reply=False, reasoning="JSON解析失败")` of
line 353, produced on `json.JSONDecodeError`. -/
def jsonFailResult : JudgeResult :=
  { should_reply := false, reasoning := Json.str "JSON解析失败" }

/-- The `JudgeResult(should_reply=False, reasoning=f"异常: ...")` of
line 357, produced by the outer exception handler (the embedding keeps
only the exception kind in the message). -/
def pipelineExceptionResult (msg : String) : JudgeResult :=
  { should_reply := false, reasoning := Json.str ("异常: " ++ msg) }

/-- Lines 319-357 of `judge_with_tiny_model`, from the raw completion
text to the returned `JudgeResult`; `loads` abstracts `json.loads`.
A decode failure is handled at line 351; a decoded non-object makes
`judge_data.get` raise `AttributeError`, and a non-numeric dimension
value raises `TypeError` — both escape the inner `try` and land in the
outer handler of lines 355-357.  The function is total: no path raises
to the caller. -/
def judge_parse_response (loads : String → Option Json) (reply_threshold : ℚ)
    (completion_text : String) : JudgeResult :=
  let content := pyStrip completion_text
  let content := stripCodeFences content
  match loads content with
  | none => jsonFailResult
  | some (Json.obj fields) =>
    match judge_from_data reply_threshold fields with
    | some jr => jr
    | none => pipelineExceptionResult "TypeError"
  | some _ => pipelineExceptionResult "AttributeError"

/-! ### Persona summarization (`_get_or_create_summarized_system_prompt`,
lines 99-141, and `_summarize_system_prompt`, lines 143-195) -/

/-- One entry of `self.system_prompt_cache` (line 63). -/
structure PromptCacheEntry where
  original : String
  summarized : String
  persona_id : String
deriving DecidableEq

/-- The in-memory cache dictionary, keyed by the `cache_key` string. -/
abbrev PromptCache := List (String × PromptCacheEntry)

/-- Dictionary lookup in the prompt cache. -/
def cacheLookup (cache : PromptCache) (key : String) : Option PromptCacheEntry :=
  (cache.find? (fun p => p.1 == key)).map (fun p => p.2)

/-- The summarization prompt template of lines 153-164. -/
def summarize_prompt_template (original_prompt : String) : String :=
  "请将以下机器人角色设定总结为简洁的核心要点，保留关键的性格特征、行为方式和角色定位。\n" ++
  "总结后的内容应该在100-200字以内，突出最重要的角色特点。\n\n原始角色设定：\n" ++
  original_prompt ++
  "\n\n请以JSON格式回复：\n\x7b\n    \"summarized_persona\": \"精简后的角色设定，保留核心特征和行为方式\"\n\x7d\n\n" ++
  "**重要：你的回复必须是完整的JSON对象，不要包含任何其他内容！**"

/-- `_summarize_system_prompt` (lines 143-195).  `judge_provider_name` is
the configured provider name (empty string when unconfigured);
`provider` is the provider looked up by `get_provider_by_id` (`none`
when not found), abstracted as its `text_chat` prompt-to-completion
oracle.  Returns the resulting text together with the number of judge
LLM calls made.  A truthy non-string `summarized_persona` raises
`AttributeError` at `.strip()`, and a decoded non-object raises at
`.get` — both are caught by the outer handler of lines 193-195, which
returns the original; falsy values fail the `if summarized` test of
line 183 and also fall back to the original. -/
def summarize_system_prompt (loads : String → Option Json)
    (judge_provider_name : String) (provider : Option (String → String))
    (original_prompt : String) : String × ℕ :=
  if judge_provider_name = "" then (original_prompt, 0)
  else
    match provider with
    | none => (original_prompt, 0)
    | some text_chat =>
      let content := pyStrip (text_chat (summarize_prompt_template original_prompt))
      let content := stripCodeFences content
      match loads content with
      | none => (original_prompt, 1)
      | some (Json.obj fields) =>
        match (dictGet fields "summarized_persona").getD (Json.str "") with
        | Json.str summarized =>
          if summarized ≠ "" ∧ 10 < (pyStrip summarized).length then
            (pyStrip summarized, 1)
          else (original_prompt, 1)
        | _ => (original_prompt, 1)
      | some _ => (original_prompt, 1)

/-- Lines 122-137 of `_get_or_create_summarized_system_prompt`: the code
reached when the cache has no matching entry.  Short or empty prompts
are returned unchanged (lines 123-125); otherwise the summarizer is
invoked and its result is written to the cache under `cache_key`
unconditionally (lines 127-134).  The summarizer is abstracted as
`summarize` returning its text and judge-call count. -/
def summarize_and_cache (summarize : String → String × ℕ) (cache : PromptCache)
    (cache_key persona_id original_prompt : String) : String × PromptCache × ℕ :=
  if original_prompt = "" ∨ (pyStrip original_prompt).length < 50 then
    (original_prompt, cache, 0)
  else
    let r := summarize original_prompt
    (r.1, (cache_key, ⟨original_prompt, r.1, persona_id⟩) :: cache, r.2)

/-- `_get_or_create_summarized_system_prompt` (lines 99-141), returning
the prompt to use, the updated cache, and the number of judge LLM calls
made.  `curr_cid` is the current conversation id (`none` short-circuits
at lines 103-105); `persona_id` is taken from the conversation (line
109).  The cache key is `f"\x7bcurr_cid\x7d_\x7bpersona_id\x7d"` (line
112).  A cached entry is reused only when its recorded original prompt
matches (lines 115-120); otherwise control falls through to
`summarize_and_cache`. -/
def get_or_create_summarized_system_prompt (summarize : String → String × ℕ)
    (cache : PromptCache) (curr_cid : Option String) (persona_id : String)
    (original_prompt : String) : String × PromptCache × ℕ :=
  match curr_cid with
  | none => (original_prompt, cache, 0)
  | some cid =>
    let cache_key := cid ++ "_" ++ persona_id
    match cacheLookup cache cache_key with
    | some cached =>
      if cached.original = original_prompt then (cached.summarized, cache, 0)
      else summarize_and_cache summarize cache cache_key persona_id original_prompt
    | none => summarize_and_cache summarize cache cache_key persona_id original_prompt

/-! ### Message gating and orchestration (`_should_process_message`,
lines 403-433, and `on_group_message`, lines 359-391) -/

/-- The configuration values read in `__init__` (lines 49-57) that the
gate and orchestrator consult. -/
structure HeartflowConfig where
  enable_heartflow : Bool
  whitelist_enabled : Bool
  chat_whitelist : List String
  reply_threshold : ℚ
  energy_decay_rate : ℚ
  energy_recovery_rate : ℚ

/-- The fields of the inbound message event that the gate reads. -/
structure EventMsg where
  unified_msg_origin : String
  message_str : String
  sender_id : String
  self_id : String
  is_at_or_wake_command : Bool

/-- `_should_process_message` (lines 403-433). -/
def should_process_message (cfg : HeartflowConfig) (e : EventMsg) : Bool :=
  if ¬ cfg.enable_heartflow then false
  else if e.is_at_or_wake_command then false
  else if cfg.whitelist_enabled ∧ cfg.chat_whitelist = [] then false
  else if cfg.whitelist_enabled ∧ e.unified_msg_origin ∉ cfg.chat_whitelist then false
  else if e.sender_id = e.self_id then false
  else if e.message_str = "" ∨ pyStrip e.message_str = "" then false
  else true

/-- `on_group_message` (lines 359-391).  The judge pipeline invocation is
abstracted as its outcome `pipeline`: `Except.ok jr` when
`judge_with_tiny_model` returned a result (its own handler at lines
355-357 already converts exceptions inside its `try` into a reject
result), `Except.error msg` when an exception escaped it and reached the
orchestrator's handler of lines 388-391, which logs and returns without
touching the chat state.  The returned `Bool` records whether the judge
pipeline was invoked at all.  The function is total, so no exception
propagates to the dispatch layer; the wake-flag mutation on the accept
path (line 375) is a host-event effect outside the chat state. -/
def on_group_message (cfg : HeartflowConfig) (e : EventMsg) (today : String)
    (now : ℚ) (pipeline : Except String JudgeResult) (st : ChatState) :
    ChatState × Bool :=
  if ¬ should_process_message cfg e then (st, false)
  else
    match pipeline with
    | Except.error _ => (st, true)
    | Except.ok jr =>
      if jr.should_reply then (update_active cfg.energy_decay_rate now today st, true)
      else (update_passive cfg.energy_recovery_rate today st, true)

/-! ### Energy-invariant helper lemmas -/

theorem reset_energy_bounds (today : String) (st : ChatState)
    (h1 : 0.1 ≤ st.energy) (h2 : st.energy ≤ 1) :
    0.1 ≤ (get_or_create_reset today st).energy ∧
      (get_or_create_reset today st).energy ≤ 1 := by
  unfold get_or_create_reset
  split
  · constructor
    · simp only [le_min_iff]
      constructor <;> [norm_num; linarith]
    · exact min_le_left _ _
  · exact ⟨h1, h2⟩

theorem step_energy_bounds (decay recovery : ℚ) (hd : 0 ≤ decay) (hr : 0 ≤ recovery)
    (st : ChatState) (op : HeartOp) (h1 : 0.1 ≤ st.energy) (h2 : st.energy ≤ 1) :
    0.1 ≤ (applyHeartOp decay recovery st op).energy ∧
      (applyHeartOp decay recovery st op).energy ≤ 1 := by
  cases op with
  | active now today =>
    obtain ⟨g1, g2⟩ := reset_energy_bounds today st h1 h2
    unfold applyHeartOp update_active
    constructor
    · exact le_max_left _ _
    · simp only [max_le_iff]
      constructor <;> [norm_num; linarith]
  | passive today =>
    obtain ⟨g1, g2⟩ := reset_energy_bounds today st h1 h2
    unfold applyHeartOp update_passive
    constructor
    · simp only [le_min_iff]
      constructor <;> [norm_num; linarith]
    · exact min_le_left _ _
  | getOrCreate today => exact reset_energy_bounds today st h1 h2

theorem run_energy_bounds (decay recovery : ℚ) (hd : 0 ≤ decay) (hr : 0 ≤ recovery)
    (ops : List HeartOp) (st : ChatState) (h1 : 0.1 ≤ st.energy) (h2 : st.energy ≤ 1) :
    0.1 ≤ (runHeartOps decay recovery ops st).energy ∧
      (runHeartOps decay recovery ops st).energy ≤ 1 := by
  induction ops generalizing st with
  | nil => exact ⟨h1, h2⟩
  | cons op rest ih =>
    obtain ⟨g1, g2⟩ := step_energy_bounds decay recovery hd hr st op h1 h2
    exact ih (applyHeartOp decay recovery st op) g1 g2

/-! ### Claim theorems -/

/-- C2: with nonnegative decay and recovery rates, any finite
interleaving of active updates, passive updates, and get-or-create daily
resets keeps a chat's energy within `[0.1, 1.0]` (starting from any
in-range energy, as the data-model invariant requires); in particular an
active update at energy `0.15` with decay rate `0.1` (same-day, so the
daily reset is a no-op) yields energy exactly `0.1`. -/
theorem energy_stays_in_bounds (decay recovery : ℚ) (hd : 0 ≤ decay)
    (hr : 0 ≤ recovery) (ops : List HeartOp) (st : ChatState)
    (h1 : 0.1 ≤ st.energy) (h2 : st.energy ≤ 1) :
    (0.1 ≤ (runHeartOps decay recovery ops st).energy ∧
      (runHeartOps decay recovery ops st).energy ≤ 1) ∧
    (update_active 0.1 0 "d"
      { energy := 0.15, last_reply_time := 0, last_reset_date := "d",
        total_messages := 0, total_replies := 0 }).energy = 0.1 :=
  ⟨run_energy_bounds decay recovery hd hr ops st h1 h2,
   by norm_num [update_active, get_or_create_reset, max_def]⟩

/-- Witness for C2 at a concrete interleaving from the freshly created
state. -/
theorem energy_stays_in_bounds_witness :
    0.1 ≤ (runHeartOps 0.1 0.02
      [HeartOp.active 5 "d", HeartOp.passive "d", HeartOp.getOrCreate "e"]
      { energy := 1, last_reply_time := 0, last_reset_date := "",
        total_messages := 0, total_replies := 0 }).energy ∧
    (runHeartOps 0.1 0.02
      [HeartOp.active 5 "d", HeartOp.passive "d", HeartOp.getOrCreate "e"]
      { energy := 1, last_reply_time := 0, last_reset_date := "",
        total_messages := 0, total_replies := 0 }).energy ≤ 1 :=
  (energy_stays_in_bounds 0.1 0.02 (by norm_num) (by norm_num)
    [HeartOp.active 5 "d", HeartOp.passive "d", HeartOp.getOrCreate "e"]
    { energy := 1, last_reply_time := 0, last_reset_date := "",
      total_messages := 0, total_replies := 0 }
    (by norm_num) (by norm_num)).1

/-- C3: the computed overall score equals
`(0.25*relevance + 0.20*willingness + 0.20*social + 0.15*timing +
0.20*continuity) / 10.0`; all dimensions at 10 give `1.0`, all at 0
give `0.0`. -/
theorem overall_score_formula :
    (∀ r w s t c : ℚ, compute_overall_score r w s t c =
      (0.25 * r + 0.2 * w + 0.2 * s + 0.15 * t + 0.2 * c) / 10) ∧
    compute_overall_score 10 10 10 10 10 = 1 ∧
    compute_overall_score 0 0 0 0 0 = 0 := by
  refine ⟨fun r w s t c => ?_, by norm_num [compute_overall_score, weights],
    by norm_num [compute_overall_score, weights]⟩
  simp only [compute_overall_score, weights]
  ring

/-- C6 counterexample: at exactly 20 total messages the code reports the
low bucket (`低`), while the claim requires the medium bucket (`中`) for
`20 ≤ total_messages ≤ 100`. -/
theorem activity_bucket_at_twenty :
    activity_bucket 20 = "低" ∧ "低" ≠ "中" := by
  constructor
  · rfl
  · decide

/-- C6 (amended): the activity bucket is low (`低`) for
`total_messages ≤ 20`, medium (`中`) for `20 < total_messages ≤ 100`,
high (`高`) for `total_messages > 100`; the reply rate is
`total_replies/total_messages*100`, and `0` (without any exception —
the embedding is total) when `total_messages = 0`; a chat with 150
messages and 30 replies reports bucket `高` and rate `20.0%`. -/
theorem chat_context_reporting (tm tr : ℕ) :
    (tm ≤ 20 → activity_bucket tm = "低") ∧
    (20 < tm → tm ≤ 100 → activity_bucket tm = "中") ∧
    (100 < tm → activity_bucket tm = "高") ∧
    reply_rate 0 tr = 0 ∧
    (tm ≠ 0 → reply_rate tm tr = (tr : ℚ) / (tm : ℚ) * 100) ∧
    activity_bucket 150 = "高" ∧
    fmt1f (reply_rate 150 30) = "20.0" ∧
    build_chat_context "12:00" ⟨1, 0, "d", 150, 30⟩ =
      "最近活跃度: 高\n历史回复率: 20.0%\n当前时间: 12:00" := by
  have hrr : reply_rate 150 30 = 20 := by norm_num [reply_rate]
  have hfl : (⌊(20 : ℚ) * 10 + 1 / 2⌋ : ℤ) = 200 := by norm_num
  refine ⟨?_, ?_, ?_, rfl, ?_, rfl, ?_, ?_⟩
  · intro h; unfold activity_bucket
    rw [if_neg (by omega), if_neg (by omega)]
  · intro h1 h2; unfold activity_bucket
    rw [if_neg (by omega), if_pos (by omega)]
  · intro h; unfold activity_bucket
    rw [if_pos (by omega)]
  · intro h; unfold reply_rate
    rw [if_neg h]
  · rw [fmt1f, hrr, hfl]; decide
  · rw [build_chat_context, fmt1f]
    show "最近活跃度: " ++ activity_bucket 150 ++ "\n历史回复率: " ++ _ ++
      "%\n当前时间: " ++ "12:00" = _
    rw [hrr, hfl]; decide

/-- Witness for C6 (amended) at the scenario values. -/
theorem chat_context_reporting_witness :
    activity_bucket 150 = "高" ∧
    reply_rate 150 30 = (30 : ℚ) / (150 : ℚ) * 100 :=
  ⟨(chat_context_reporting 150 30).2.2.1 (by norm_num),
   (chat_context_reporting 150 30).2.2.2.2.1 (by norm_num)⟩

/-- C9: `minutes_since_last_reply` returns exactly 999 when the chat has
never had a proactive reply (`last_reply_time == 0`), and otherwise
(assuming `now ≥ last_reply_time`) returns
`floor((now - last_reply_time)/60)`. -/
theorem minutes_since_last_reply_spec (today : String) (now : ℚ) (st : ChatState) :
    (st.last_reply_time = 0 → get_minutes_since_last_reply today now st = 999) ∧
    (st.last_reply_time ≠ 0 → st.last_reply_time ≤ now →
      get_minutes_since_last_reply today now st =
        ⌊(now - st.last_reply_time) / 60⌋) := by
  have hpres : (get_or_create_reset today st).last_reply_time = st.last_reply_time := by
    unfold get_or_create_reset; split <;> rfl
  unfold get_minutes_since_last_reply
  simp only [hpres]
  constructor
  · intro h; rw [if_pos h]
  · intro h hle
    rw [if_neg h]
    unfold pyint
    rw [if_pos (div_nonneg (sub_nonneg.2 hle) (by norm_num))]

/-- Witness for C9: a never-replied chat gives 999; a chat that replied
60 seconds ago (now = 120) gives the floored minute count. -/
theorem minutes_since_last_reply_witness :
    get_minutes_since_last_reply "d" 500 ⟨1, 0, "d", 0, 0⟩ = 999 ∧
    get_minutes_since_last_reply "d" 120 ⟨1, 60, "d", 0, 0⟩ =
      ⌊((120 : ℚ) - 60) / 60⌋ :=
  ⟨(minutes_since_last_reply_spec "d" 500 ⟨1, 0, "d", 0, 0⟩).1 rfl,
   (minutes_since_last_reply_spec "d" 120 ⟨1, 60, "d", 0, 0⟩).2
     (by norm_num) (by norm_num)⟩

/-! ### Judge-result destructuring helper -/

theorem judge_from_data_eq (thr : ℚ) (fields : List (String × Json)) (jr : JudgeResult)
    (h : judge_from_data thr fields = some jr) :
    ∃ r w so t c, getDimension fields "relevance" = some r ∧
      getDimension fields "willingness" = some w ∧
      getDimension fields "social" = some so ∧
      getDimension fields "timing" = some t ∧
      getDimension fields "continuity" = some c ∧
      jr = { relevance := r, willingness := w, social := so, timing := t, continuity := c,
             reasoning := (dictGet fields "reasoning").getD (Json.str ""),
             should_reply := pyTruthy ((dictGet fields "should_reply").getD (Json.bool false)) &&
               decide (thr ≤ compute_overall_score r w so t c),
             confidence := (dictGet fields "confidence").getD (Json.num 0),
             overall_score := compute_overall_score r w so t c,
             related_messages :=
               postInitRelated ((dictGet fields "related_messages").getD (Json.arr [])) } := by
  unfold judge_from_data at h
  rcases h1 : getDimension fields "relevance" with _ | r <;> rw [h1] at h
  · simp at h
  rcases h2 : getDimension fields "willingness" with _ | w <;> rw [h2] at h
  · simp at h
  rcases h3 : getDimension fields "social" with _ | so <;> rw [h3] at h
  · simp at h
  rcases h4 : getDimension fields "timing" with _ | t <;> rw [h4] at h
  · simp at h
  rcases h5 : getDimension fields "continuity" with _ | c <;> rw [h5] at h
  · simp at h
  simp only [Option.some.injEq] at h
  exact ⟨r, w, so, t, c, rfl, rfl, rfl, rfl, rfl, h.symm⟩

theorem postInitRelated_of_ne_null (v : Json) (hv : v ≠ Json.null) :
    postInitRelated v = v := by
  cases v <;> first | exact absurd rfl hv | rfl

/-- C1: for every parsed judge response, `should_reply` is false whenever
`overall_score < reply_threshold` regardless of the judge's raw
`should_reply` value, and is true exactly when the raw value is truthy
and `overall_score ≥ reply_threshold`. -/
theorem should_reply_threshold_gate (thr : ℚ) (fields : List (String × Json))
    (jr : JudgeResult) (h : judge_from_data thr fields = some jr) :
    (jr.overall_score < thr → jr.should_reply = false) ∧
    (jr.should_reply = true ↔
      pyTruthy ((dictGet fields "should_reply").getD (Json.bool false)) = true ∧
        thr ≤ jr.overall_score) := by
  obtain ⟨r, w, so, t, c, _, _, _, _, _, rfl⟩ := judge_from_data_eq thr fields jr h
  constructor
  · intro hlt
    have hn : ¬ thr ≤ compute_overall_score r w so t c := not_le.2 hlt
    simp [hn]
  · simp [Bool.and_eq_true, decide_eq_true_iff]

/-- The dimension fields used by the C1 witness. -/
def demoJudgeFields : List (String × Json) :=
  [("relevance", Json.num 10), ("willingness", Json.num 10),
   ("social", Json.num 10), ("timing", Json.num 10),
   ("continuity", Json.num 10), ("should_reply", Json.bool true)]

/-- Witness for C1: a response scoring 10 on every dimension with a raw
`true` boolean is accepted at threshold 3/5. -/
theorem should_reply_threshold_gate_witness :
    ((judge_from_data (3/5) demoJudgeFields).getD jsonFailResult).should_reply = true := by
  have h : judge_from_data (3/5) demoJudgeFields =
      some ((judge_from_data (3/5) demoJudgeFields).getD jsonFailResult) := rfl
  refine (should_reply_threshold_gate (3/5) demoJudgeFields _ h).2.mpr ⟨rfl, ?_⟩
  show (3/5 : ℚ) ≤ compute_overall_score 10 10 10 10 10
  norm_num [compute_overall_score, weights]

/-- C4 counterexample: when the decoded object carries a malformed
(non-list, non-null) `related_messages` — here the string `"x"` — the
parser stores it verbatim instead of defaulting it to the empty list. -/
theorem related_messages_not_defaulted :
    (judge_parse_response (fun _ => some (Json.obj [("related_messages", Json.str "x")]))
      0 "y").related_messages = Json.str "x" ∧
    Json.str "x" ≠ Json.arr [] := by
  refine ⟨rfl, fun h => Json.noConfusion h⟩

/-- C4 (amended): parsing is total (never raises to the caller); text
that is not valid JSON after code-fence stripping yields
`should_reply = false` and a parse-failure reasoning; when JSON parses
to an object, each missing dimension field defaults to 0, and
`related_messages` defaults to the empty list when absent or JSON-null
(any other present value is stored verbatim). -/
theorem judge_parse_defensive :
    (∀ loads thr raw, loads (stripCodeFences (pyStrip raw)) = none →
      (judge_parse_response loads thr raw).should_reply = false ∧
      (judge_parse_response loads thr raw).reasoning = Json.str "JSON解析失败") ∧
    (∀ thr fields jr, judge_from_data thr fields = some jr →
      (dictGet fields "relevance" = none → jr.relevance = 0) ∧
      (dictGet fields "willingness" = none → jr.willingness = 0) ∧
      (dictGet fields "social" = none → jr.social = 0) ∧
      (dictGet fields "timing" = none → jr.timing = 0) ∧
      (dictGet fields "continuity" = none → jr.continuity = 0) ∧
      (dictGet fields "related_messages" = none → jr.related_messages = Json.arr []) ∧
      (dictGet fields "related_messages" = some Json.null →
        jr.related_messages = Json.arr []) ∧
      (∀ v, dictGet fields "related_messages" = some v → v ≠ Json.null →
        jr.related_messages = v)) := by
  constructor
  · intro loads thr raw hfail
    simp only [judge_parse_response]
    rw [hfail]
    exact ⟨rfl, rfl⟩
  · intro thr fields jr h
    obtain ⟨r, w, so, t, c, h1, h2, h3, h4, h5, rfl⟩ := judge_from_data_eq thr fields jr h
    refine ⟨?_, ?_, ?_, ?_, ?_, ?_, ?_, ?_⟩
    · intro hn; rw [getDimension, hn] at h1
      exact (Option.some.inj h1).symm
    · intro hn; rw [getDimension, hn] at h2
      exact (Option.some.inj h2).symm
    · intro hn; rw [getDimension, hn] at h3
      exact (Option.some.inj h3).symm
    · intro hn; rw [getDimension, hn] at h4
      exact (Option.some.inj h4).symm
    · intro hn; rw [getDimension, hn] at h5
      exact (Option.some.inj h5).symm
    · intro hn; show postInitRelated _ = _
      rw [hn]; rfl
    · intro hn; show postInitRelated _ = _
      rw [hn]; rfl
    · intro v hv hvn; show postInitRelated _ = _
      rw [hv]
      exact postInitRelated_of_ne_null v hvn

/-- Witness for C4 (amended): a `loads` that always fails yields the
reject result, and an object missing every field gets all-zero
dimensions and an empty `related_messages`. -/
theorem judge_parse_defensive_witness :
    ((judge_parse_response (fun _ => none) 0 "x").should_reply = false ∧
      (judge_parse_response (fun _ => none) 0 "x").reasoning = Json.str "JSON解析失败") ∧
    (((judge_from_data 0 []).getD jsonFailResult).relevance = 0 ∧
      ((judge_from_data 0 []).getD jsonFailResult).related_messages = Json.arr []) :=
  ⟨judge_parse_defensive.1 (fun _ => none) 0 "x" rfl,
   (judge_parse_defensive.2 0 [] ((judge_from_data 0 []).getD jsonFailResult) rfl).1 rfl,
   (judge_parse_defensive.2 0 [] ((judge_from_data 0 []).getD jsonFailResult) rfl).2.2.2.2.2.1 rfl⟩

/-! ### Gating helper lemmas -/

theorem should_process_false_of_disabled (cfg : HeartflowConfig) (e : EventMsg)
    (h : cfg.enable_heartflow = false) : should_process_message cfg e = false := by
  unfold should_process_message
  rw [h]
  simp

theorem should_process_false_of_wl_empty (cfg : HeartflowConfig) (e : EventMsg)
    (hwl : cfg.whitelist_enabled = true) (hemp : cfg.chat_whitelist = []) :
    should_process_message cfg e = false := by
  unfold should_process_message
  split_ifs <;> first | rfl | tauto

theorem should_process_false_of_not_whitelisted (cfg : HeartflowConfig) (e : EventMsg)
    (hwl : cfg.whitelist_enabled = true)
    (hmem : e.unified_msg_origin ∉ cfg.chat_whitelist) :
    should_process_message cfg e = false := by
  unfold should_process_message
  split_ifs <;> first | rfl | tauto

theorem on_group_message_skip (cfg : HeartflowConfig) (e : EventMsg) (today : String)
    (now : ℚ) (pipeline : Except String JudgeResult) (st : ChatState)
    (h : should_process_message cfg e = false) :
    on_group_message cfg e today now pipeline st = (st, false) := by
  unfold on_group_message
  rw [h]
  simp

/-- C10: the handler performs no judge call and no chat-state mutation
unless `enable_heartflow` is true; with the whitelist enabled, a message
is processed only when its chat identifier is whitelisted, so with the
whitelist enabled and empty every message is skipped untouched (state
returned unchanged, judge never invoked). -/
theorem gating_spec (cfg : HeartflowConfig) (e : EventMsg) (today : String) (now : ℚ)
    (pipeline : Except String JudgeResult) (st : ChatState) :
    (cfg.enable_heartflow = false →
      on_group_message cfg e today now pipeline st = (st, false)) ∧
    (cfg.whitelist_enabled = true → e.unified_msg_origin ∉ cfg.chat_whitelist →
      on_group_message cfg e today now pipeline st = (st, false)) ∧
    (cfg.whitelist_enabled = true → cfg.chat_whitelist = [] →
      on_group_message cfg e today now pipeline st = (st, false)) :=
  ⟨fun h => on_group_message_skip cfg e today now pipeline st
      (should_process_false_of_disabled cfg e h),
   fun hwl hmem => on_group_message_skip cfg e today now pipeline st
      (should_process_false_of_not_whitelisted cfg e hwl hmem),
   fun hwl hemp => on_group_message_skip cfg e today now pipeline st
      (should_process_false_of_wl_empty cfg e hwl hemp)⟩

/-- Witness for C10: with the plugin disabled (and also with an enabled
empty whitelist) a concrete message leaves the state untouched and never
reaches the judge. -/
theorem gating_spec_witness :
    on_group_message ⟨false, false, [], 0, 0, 0⟩ ⟨"c", "hi", "u", "b", false⟩ "d" 0
      (Except.error "boom") ⟨1, 0, "", 0, 0⟩ = (⟨1, 0, "", 0, 0⟩, false) ∧
    on_group_message ⟨true, true, [], 0, 0, 0⟩ ⟨"c", "hi", "u", "b", false⟩ "d" 0
      (Except.error "boom") ⟨1, 0, "", 0, 0⟩ = (⟨1, 0, "", 0, 0⟩, false) :=
  ⟨(gating_spec ⟨false, false, [], 0, 0, 0⟩ ⟨"c", "hi", "u", "b", false⟩ "d" 0
      (Except.error "boom") ⟨1, 0, "", 0, 0⟩).1 rfl,
   (gating_spec ⟨true, true, [], 0, 0, 0⟩ ⟨"c", "hi", "u", "b", false⟩ "d" 0
      (Except.error "boom") ⟨1, 0, "", 0, 0⟩).2.2 rfl rfl⟩

/-- C5 counterexample: an exception that escapes the judge pipeline and
reaches the orchestrator's handler (lines 388-391) is only logged — the
passive update is NOT applied: `total_messages` stays 0, whereas the
claimed passive update would make it 1 (and recover energy). -/
theorem exception_skips_passive_update :
    (on_group_message ⟨true, false, [], 3/5, 1/10, 1/50⟩ ⟨"chat", "hi", "u1", "bot", false⟩
        "d" 0 (Except.error "boom") ⟨1, 0, "d", 0, 0⟩).1.total_messages = 0 ∧
    (update_passive (1/50) "d" ⟨1, 0, "d", 0, 0⟩).total_messages = 1 :=
  ⟨rfl, rfl⟩

/-- C5 (amended): the orchestrator is total, so no exception propagates
to the message-dispatch layer.  Exceptions raised inside
`judge_with_tiny_model`'s own `try` (judge call, response parsing) are
converted by its handler (lines 355-357) into a reject result, which
takes the reject branch and applies the passive update; but an exception
that escapes to the orchestrator boundary (lines 388-391) is caught and
logged with NO state update — the chat state is returned unchanged. -/
theorem orchestrator_exception_boundary (cfg : HeartflowConfig) (e : EventMsg)
    (today : String) (now : ℚ) (st : ChatState)
    (hp : should_process_message cfg e = true) :
    (∀ msg, on_group_message cfg e today now (Except.error msg) st = (st, true)) ∧
    (∀ jr : JudgeResult, jr.should_reply = false →
      on_group_message cfg e today now (Except.ok jr) st =
        (update_passive cfg.energy_recovery_rate today st, true)) := by
  constructor
  · intro msg
    unfold on_group_message
    rw [hp]
    simp
  · intro jr hjr
    unfold on_group_message
    rw [hp]
    simp [hjr]

/-- Witness for C5 (amended): both branches at a concrete eligible
message — an escaped exception leaves the state unchanged, a reject
result applies the passive update. -/
theorem orchestrator_exception_boundary_witness :
    on_group_message ⟨true, false, [], 3/5, 1/10, 1/50⟩
      ⟨"chat", "hi", "u1", "bot", false⟩ "d" 0 (Except.error "boom") ⟨1, 0, "d", 0, 0⟩ =
      (⟨1, 0, "d", 0, 0⟩, true) ∧
    on_group_message ⟨true, false, [], 3/5, 1/10, 1/50⟩
      ⟨"chat", "hi", "u1", "bot", false⟩ "d" 0 (Except.ok jsonFailResult)
      ⟨1, 0, "d", 0, 0⟩ = (update_passive (1/50) "d" ⟨1, 0, "d", 0, 0⟩, true) :=
  ⟨(orchestrator_exception_boundary ⟨true, false, [], 3/5, 1/10, 1/50⟩
      ⟨"chat", "hi", "u1", "bot", false⟩ "d" 0 ⟨1, 0, "d", 0, 0⟩ rfl).1 "boom",
   (orchestrator_exception_boundary ⟨true, false, [], 3/5, 1/10, 1/50⟩
      ⟨"chat", "hi", "u1", "bot", false⟩ "d" 0 ⟨1, 0, "d", 0, 0⟩ rfl).2 jsonFailResult rfl⟩

/-! ### Persona-cache helper lemmas -/

/-- A 60-character persona text (above the 50-character threshold), used
by concrete persona-summarization instances. -/
def demoPersona : String :=
  "012345678901234567890123456789012345678901234567890123456789"

/-- A summarizer oracle that always succeeds with one judge call, used
by concrete persona-summarization instances. -/
def demoSummarizer : String → String × ℕ :=
  fun _ => ("a summary text exceeding ten characters", 1)

theorem cacheLookup_cons_self (cache : PromptCache) (key : String)
    (entry : PromptCacheEntry) :
    cacheLookup ((key, entry) :: cache) key = some entry := by
  simp [cacheLookup]

theorem gocs_of_hit (summarize : String → String × ℕ) (cache : PromptCache)
    (cid persona_id original : String) (cached : PromptCacheEntry)
    (h : cacheLookup cache (cid ++ "_" ++ persona_id) = some cached)
    (horig : cached.original = original) :
    get_or_create_summarized_system_prompt summarize cache (some cid) persona_id original =
      (cached.summarized, cache, 0) := by
  simp only [get_or_create_summarized_system_prompt]
  rw [h]
  simp [horig]

theorem gocs_of_stale (summarize : String → String × ℕ) (cache : PromptCache)
    (cid persona_id original : String) (cached : PromptCacheEntry)
    (h : cacheLookup cache (cid ++ "_" ++ persona_id) = some cached)
    (horig : cached.original ≠ original) :
    get_or_create_summarized_system_prompt summarize cache (some cid) persona_id original =
      summarize_and_cache summarize cache (cid ++ "_" ++ persona_id) persona_id original := by
  simp only [get_or_create_summarized_system_prompt]
  rw [h]
  simp [horig]

theorem gocs_of_miss (summarize : String → String × ℕ) (cache : PromptCache)
    (cid persona_id original : String)
    (h : cacheLookup cache (cid ++ "_" ++ persona_id) = none) :
    get_or_create_summarized_system_prompt summarize cache (some cid) persona_id original =
      summarize_and_cache summarize cache (cid ++ "_" ++ persona_id) persona_id original := by
  simp only [get_or_create_summarized_system_prompt]
  rw [h]

theorem summarize_and_cache_long (summarize : String → String × ℕ) (cache : PromptCache)
    (key persona_id original : String) (hlen : 50 ≤ (pyStrip original).length) :
    summarize_and_cache summarize cache key persona_id original =
      ((summarize original).1,
       (key, ⟨original, (summarize original).1, persona_id⟩) :: cache,
       (summarize original).2) := by
  have hne : ¬(original = "" ∨ (pyStrip original).length < 50) := by
    push_neg
    refine ⟨?_, by omega⟩
    intro h
    subst h
    exact absurd hlen (by decide)
  unfold summarize_and_cache
  rw [if_neg hne]

/-- C7 counterexample: the cache key is `conversation-id_persona-id`,
not a content hash of the persona text — a second summarize invocation
with the identical persona text but a different conversation id misses
the cache and makes a judge call (count 1, not 0). -/
theorem cache_key_not_content_hash :
    (get_or_create_summarized_system_prompt demoSummarizer
      (get_or_create_summarized_system_prompt demoSummarizer [] (some "cid1") "p"
        demoPersona).2.1
      (some "cid2") "p" demoPersona).2.2 = 1 ∧ (1 : ℕ) ≠ 0 :=
  ⟨rfl, one_ne_zero⟩

/-- C7 (amended): the cache is keyed by conversation id and persona id,
with the cached original compared before reuse; a second invocation with
identical persona text (of trimmed length ≥ 50) under the same
conversation and persona is a cache hit: it returns the first
invocation's result, leaves the cache unchanged, and makes zero judge
calls. -/
theorem persona_cache_hit_on_second_call (summarize : String → String × ℕ)
    (cache : PromptCache) (cid persona_id original : String)
    (hlen : 50 ≤ (pyStrip original).length) :
    get_or_create_summarized_system_prompt summarize
      (get_or_create_summarized_system_prompt summarize cache (some cid) persona_id
        original).2.1
      (some cid) persona_id original =
    ((get_or_create_summarized_system_prompt summarize cache (some cid) persona_id
        original).1,
     (get_or_create_summarized_system_prompt summarize cache (some cid) persona_id
        original).2.1,
     0) := by
  cases hl : cacheLookup cache (cid ++ "_" ++ persona_id) with
  | some cached =>
    by_cases horig : cached.original = original
    · rw [gocs_of_hit summarize cache cid persona_id original cached hl horig]
      rw [gocs_of_hit summarize cache cid persona_id original cached hl horig]
    · rw [gocs_of_stale summarize cache cid persona_id original cached hl horig,
        summarize_and_cache_long summarize cache _ persona_id original hlen]
      rw [gocs_of_hit summarize _ cid persona_id original
        ⟨original, (summarize original).1, persona_id⟩
        (cacheLookup_cons_self _ _ _) rfl]
  | none =>
    rw [gocs_of_miss summarize cache cid persona_id original hl,
      summarize_and_cache_long summarize cache _ persona_id original hlen]
    rw [gocs_of_hit summarize _ cid persona_id original
      ⟨original, (summarize original).1, persona_id⟩
      (cacheLookup_cons_self _ _ _) rfl]

/-- Witness for C7 (amended): two invocations with the same 60-character
persona under the same conversation — the second is a pure cache hit. -/
theorem persona_cache_hit_on_second_call_witness :
    get_or_create_summarized_system_prompt demoSummarizer
      (get_or_create_summarized_system_prompt demoSummarizer [] (some "cid1") "p"
        demoPersona).2.1
      (some "cid1") "p" demoPersona =
    ((get_or_create_summarized_system_prompt demoSummarizer [] (some "cid1") "p"
        demoPersona).1,
     (get_or_create_summarized_system_prompt demoSummarizer [] (some "cid1") "p"
        demoPersona).2.1,
     0) :=
  persona_cache_hit_on_second_call demoSummarizer [] "cid1" "p" demoPersona (by decide)

/-! ### Summarization graceful degradation (C8) -/

/-- Well-formedness of the prompt cache: every stored entry was created
by `summarize_and_cache`, whose guard admits only nonempty originals of
trimmed length at least 50. -/
def CacheWF (cache : PromptCache) : Prop :=
  ∀ p ∈ cache, ¬(p.2.original = "" ∨ (pyStrip p.2.original).length < 50)

theorem cacheLookup_mem (cache : PromptCache) (key : String)
    (cached : PromptCacheEntry) (h : cacheLookup cache key = some cached) :
    ∃ p ∈ cache, p.2 = cached := by
  unfold cacheLookup at h
  cases hf : cache.find? (fun p => p.1 == key) with
  | none => rw [hf] at h; exact absurd h (by simp)
  | some p =>
    rw [hf] at h
    exact ⟨p, List.mem_of_find?_eq_some hf, Option.some.inj h⟩

/-- C8 counterexample: with a 60-character persona and a judge model
whose output fails to parse, the summarizer falls back to the original
text, yet the caller still caches an entry (original → original) — the
claim that *only* a parsed summary longer than 10 characters is cached
is false. -/
theorem failed_summary_still_cached :
    (get_or_create_summarized_system_prompt
        (fun s => summarize_system_prompt (fun _ => none) "judge"
          (some (fun _ => "oops")) s)
        [] (some "cid") "p" demoPersona).2.1 =
      [("cid_p", ⟨demoPersona, demoPersona, "p"⟩)] ∧
    (get_or_create_summarized_system_prompt
        (fun s => summarize_system_prompt (fun _ => none) "judge"
          (some (fun _ => "oops")) s)
        [] (some "cid") "p" demoPersona).1 = demoPersona :=
  ⟨rfl, rfl⟩

/-- C8 (amended): summarization degrades gracefully — empty text or text
of trimmed length under 50 (hence any text shorter than 50 characters)
is returned unchanged with zero judge calls (given a well-formed cache);
the summarizer returns a parsed `summarized_persona` only when it is a
nonempty string of trimmed length over 10; on parse failure, or on a
missing, empty or too-short summary field, it returns the original text
unmodified — and the caller then caches that fallback text. -/
theorem summarization_graceful :
    (∀ summarize cache cid persona_id original, CacheWF cache →
      (original = "" ∨ (pyStrip original).length < 50) →
      get_or_create_summarized_system_prompt summarize cache (some cid) persona_id
        original = (original, cache, 0)) ∧
    (∀ (loads : String → Option Json) name (text_chat : String → String) original,
      loads (stripCodeFences (pyStrip (text_chat (summarize_prompt_template original))))
        = none →
      (summarize_system_prompt loads name (some text_chat) original).1 = original) ∧
    (∀ (loads : String → Option Json) name (text_chat : String → String) original
        fields s,
      name ≠ "" →
      loads (stripCodeFences (pyStrip (text_chat (summarize_prompt_template original))))
        = some (Json.obj fields) →
      dictGet fields "summarized_persona" = some (Json.str s) →
      s ≠ "" → 10 < (pyStrip s).length →
      summarize_system_prompt loads name (some text_chat) original = (pyStrip s, 1)) ∧
    (∀ (loads : String → Option Json) name (text_chat : String → String) original
        fields s,
      loads (stripCodeFences (pyStrip (text_chat (summarize_prompt_template original))))
        = some (Json.obj fields) →
      dictGet fields "summarized_persona" = some (Json.str s) →
      (s = "" ∨ (pyStrip s).length ≤ 10) →
      (summarize_system_prompt loads name (some text_chat) original).1 = original) := by
  refine ⟨?_, ?_, ?_, ?_⟩
  · intro summarize cache cid persona_id original hwf hshort
    have hsc : summarize_and_cache summarize cache (cid ++ "_" ++ persona_id)
        persona_id original = (original, cache, 0) := by
      unfold summarize_and_cache
      rw [if_pos hshort]
    cases hl : cacheLookup cache (cid ++ "_" ++ persona_id) with
    | some cached =>
      obtain ⟨p, hmem, hp⟩ := cacheLookup_mem cache _ cached hl
      have horig : cached.original ≠ original := by
        intro he
        apply hwf p hmem
        rw [hp, he]
        exact hshort
      rw [gocs_of_stale summarize cache cid persona_id original cached hl horig, hsc]
    | none =>
      rw [gocs_of_miss summarize cache cid persona_id original hl, hsc]
  · intro loads name text_chat original hfail
    by_cases hn : name = ""
    · simp [summarize_system_prompt, hn]
    · simp only [summarize_system_prompt]
      rw [if_neg hn, hfail]
  · intro loads name text_chat original fields s hn hpars hdict hs hlen
    simp only [summarize_system_prompt]
    rw [if_neg hn, hpars]
    simp only [hdict, Option.getD_some]
    rw [if_pos ⟨hs, hlen⟩]
  · intro loads name text_chat original fields s hpars hdict hshort
    by_cases hn : name = ""
    · simp [summarize_system_prompt, hn]
    · simp only [summarize_system_prompt]
      rw [if_neg hn, hpars]
      simp only [hdict, Option.getD_some]
      rw [if_neg (by
        rintro ⟨h1, h2⟩
        rcases hshort with h | h
        · exact h1 h
        · omega)]

/-- Witness for C8 (amended), exercising all four parts at concrete
inputs: a short persona on the empty cache, a parse failure, a valid
12-character summary, and an empty summary field. -/
theorem summarization_graceful_witness :
    get_or_create_summarized_system_prompt demoSummarizer [] (some "c") "p" "short" =
      ("short", [], 0) ∧
    (summarize_system_prompt (fun _ => none) "judge" (some (fun _ => "oops"))
      demoPersona).1 = demoPersona ∧
    summarize_system_prompt
      (fun _ => some (Json.obj [("summarized_persona", Json.str "twelve chars!")]))
      "judge" (some (fun _ => "ignored")) demoPersona =
      (pyStrip "twelve chars!", 1) ∧
    (summarize_system_prompt
      (fun _ => some (Json.obj [("summarized_persona", Json.str "")]))
      "judge" (some (fun _ => "ignored")) demoPersona).1 = demoPersona :=
  ⟨summarization_graceful.1 demoSummarizer [] "c" "p" "short"
      (fun p hp => absurd hp (List.not_mem_nil p)) (Or.inr (by decide)),
   summarization_graceful.2.1 (fun _ => none) "judge" (fun _ => "oops") demoPersona rfl,
   summarization_graceful.2.2.1
      (fun _ => some (Json.obj [("summarized_persona", Json.str "twelve chars!")]))
      "judge" (fun _ => "ignored") demoPersona
      [("summarized_persona", Json.str "twelve chars!")] "twelve chars!"
      (by decide) rfl rfl (by decide) (by decide),
   summarization_graceful.2.2.2
      (fun _ => some (Json.obj [("summarized_persona", Json.str "")]))
      "judge" (fun _ => "ignored") demoPersona
      [("summarized_persona", Json.str "")] "" rfl rfl (Or.inl rfl)⟩

end Heartflow
